import Mathlib

/-!
Shallow embedding of the cluster teardown orchestrator
(`pkg/destroy/ovirt/destroyer.go`), of the Alibaba Cloud storage-gateway
describe wrappers
(`vendor/.../alicloud/service_alicloud_sgw.go`), and of the memoizing
client accessor (`pkg/asset/installconfig/alibabacloud/metadata.go`).

External API calls are modelled by an explicit environment (`Engine`,
`SgwEnv`) giving the response to each call.  Each embedded function
returns, besides its Go return value, the trace of API operations it
attempted (`Op`) and the log lines it emitted (`LogEntry`), so that
claims about "step X is attempted even when step Y failed" become
statements about the trace.  Goroutine fan-out in `removeVMs` is
sequentialized: each per-VM unit is a pure function of the environment
and that VM alone, which captures the independence of sibling units
(the real code fixes no inter-VM order, and no claim here depends on
one).
-/

namespace Ovirt

/-- Error from the oVirt engine API, as seen by the destroyer. -/
inductive OErr where
  | notFound
  | other (msg : String)
deriving DecidableEq, Repr

/-- Level of a logrus log line emitted by the destroyer. -/
inductive LogLevel where
  | debug
  | info
  | warn
  | error
deriving DecidableEq, Repr

/-- One log line: level and message. -/
structure LogEntry where
  level : LogLevel
  msg : String
deriving DecidableEq, Repr

/-- A VM handle as returned by the VM search (`MustId`, `MustName`). -/
structure Vm where
  id : String
  name : String
deriving DecidableEq, Repr

/-- A tag handle as returned by the tag list. -/
structure Tag where
  id : String
  name : String
deriving DecidableEq, Repr

/-- A template handle as returned by the template search. -/
structure Template where
  id : String
  name : String
deriving DecidableEq, Repr

/-- An affinity-group handle as returned by the affinity-group list. -/
structure AffinityGroup where
  id : String
  name : String
deriving DecidableEq, Repr

/-- One API operation attempted against the engine: the trace alphabet. -/
inductive Op where
  | searchVMs (tag : String)
  | stop (vmId : String)
  | waitDown (vmId : String)
  | remove (vmId : String)
  | listTags
  | removeTagOp (tagId : String)
  | searchTemplates (term : String)
  | removeTemplateOp (tmplId : String)
  | listAffinityGroups (clusterId : String)
  | removeAffinityGroupOp (agId : String)
deriving DecidableEq, Repr

/-- Responses of the oVirt engine to each API call the destroyer makes.
`searchTemplates` returns an `Option` to model the `ok` flag of
`search.Templates()` (absent result list). -/
structure Engine where
  searchVMs : String → Except OErr (List Vm)
  stopVM : String → Except OErr Unit
  waitForDown : String → Except OErr Unit
  removeVM : String → Except OErr Unit
  listTags : Except OErr (List Tag)
  removeTag : String → Except OErr Unit
  searchTemplates : String → Except OErr (Option (List Template))
  removeTemplate : String → Except OErr Unit
  listAffinityGroups : String → Except OErr (List AffinityGroup)
  removeAffinityGroup : String → Except OErr Unit

/-- `Metadata.Ovirt` of the destroyer (`types.ClusterMetadata`):
the template-removal flag and the parent cluster id. -/
structure OvirtPlatformMeta where
  RemoveTemplate : Bool
  ClusterID : String
deriving DecidableEq, Repr

/-- `types.ClusterMetadata` as used by the destroyer. -/
structure ClusterMetadata where
  InfraID : String
  Ovirt : OvirtPlatformMeta
deriving DecidableEq, Repr

/-- Result of one teardown step: operations attempted, log lines, and the
Go error return (`none` = nil). -/
structure StepResult where
  ops : List Op
  logs : List LogEntry
  ret : Option OErr
deriving DecidableEq, Repr

/-- `ClusterUninstaller.stopVM` (destroyer.go:100-116): stop the VM
(logging success or failure), then wait for the powered-off state
(logging success or a warning on timeout).  Neither failure is
propagated: the function has no error return. -/
def stopVM (eng : Engine) (vm : Vm) : List Op × List LogEntry :=
  let stopLogs :=
    match eng.stopVM vm.id with
    | .ok _ => [LogEntry.mk .info ("Stopping VM " ++ vm.name)]
    | .error _ => [LogEntry.mk .error ("Failed to stop VM " ++ vm.name)]
  let waitLogs :=
    match eng.waitForDown vm.id with
    | .ok _ => [LogEntry.mk .info ("VM " ++ vm.name ++ " powered off")]
    | .error _ => [LogEntry.mk .warn ("Waited for VM " ++ vm.name ++ " to power off")]
  ([Op.stop vm.id, Op.waitDown vm.id], stopLogs ++ waitLogs)

/-- `ClusterUninstaller.removeVM` (destroyer.go:118-126): one removal
call; success is logged at info level, any error at error level; no
error is propagated. -/
def removeVM (eng : Engine) (vm : Vm) : List Op × List LogEntry :=
  match eng.removeVM vm.id with
  | .ok _ => ([Op.remove vm.id], [LogEntry.mk .info ("Removing VM " ++ vm.name)])
  | .error _ => ([Op.remove vm.id], [LogEntry.mk .error ("Failed to remove VM " ++ vm.name)])

/-- The body of one goroutine of `removeVMs` (destroyer.go:69-73):
`stopVM` then `removeVM`, unconditionally. -/
def vmUnit (eng : Engine) (vm : Vm) : List Op × List LogEntry :=
  let s := stopVM eng vm
  let r := removeVM eng vm
  (s.1 ++ r.1, s.2 ++ r.2)

/-- `ClusterUninstaller.removeVMs` (destroyer.go:54-77): search VMs by
tag; on search failure return the error; otherwise run the stop+remove
unit for every VM found, join, and return nil. -/
def removeVMs (eng : Engine) (tag : String) : StepResult :=
  let searchLog := LogEntry.mk .debug ("Searching VMs by tag=" ++ tag)
  match eng.searchVMs tag with
  | .error e => ⟨[Op.searchVMs tag], [searchLog], some e⟩
  | .ok vms =>
    let foundLog := LogEntry.mk .debug ("Found " ++ toString vms.length ++ " VMs")
    ⟨Op.searchVMs tag :: vms.flatMap (fun vm => (vmUnit eng vm).1),
     searchLog :: foundLog :: vms.flatMap (fun vm => (vmUnit eng vm).2),
     none⟩

/-- The loop of `removeTag` (destroyer.go:87-95): remove every listed tag
whose name equals `tag`; a failed removal is returned immediately. -/
def removeTagLoop (eng : Engine) (tag : String) : List Tag → List Op × List LogEntry × Option OErr
  | [] => ([], [], none)
  | t :: ts =>
    if t.name = tag then
      match eng.removeTag t.id with
      | .error e =>
        ([Op.removeTagOp t.id], [LogEntry.mk .info ("Removing tag " ++ t.name)], some e)
      | .ok _ =>
        let r := removeTagLoop eng tag ts
        (Op.removeTagOp t.id :: r.1, LogEntry.mk .info ("Removing tag " ++ t.name) :: r.2.1, r.2.2)
    else removeTagLoop eng tag ts

/-- `ClusterUninstaller.removeTag` (destroyer.go:79-98): list all tags;
on list failure return the error; otherwise remove each tag with the
matching name. -/
def removeTag (eng : Engine) (tag : String) : StepResult :=
  match eng.listTags with
  | .error e => ⟨[Op.listTags], [], some e⟩
  | .ok ts =>
    let r := removeTagLoop eng tag ts
    ⟨Op.listTags :: r.1, r.2.1, r.2.2⟩

/-- The loop of `removeTemplate` (destroyer.go:138-145): remove each
template in order; a failed removal is returned immediately, so later
templates are not attempted. -/
def removeTemplateLoop (eng : Engine) : List Template → List Op × List LogEntry × Option OErr
  | [] => ([], [], none)
  | t :: ts =>
    match eng.removeTemplate t.id with
    | .error e =>
      ([Op.removeTemplateOp t.id], [LogEntry.mk .info ("Removing Template " ++ t.name)], some e)
    | .ok _ =>
      let r := removeTemplateLoop eng ts
      (Op.removeTemplateOp t.id :: r.1,
       LogEntry.mk .info ("Removing Template " ++ t.name) :: r.2.1, r.2.2)

/-- `ClusterUninstaller.removeTemplate` (destroyer.go:128-149): gated on
`Metadata.Ovirt.RemoveTemplate`; when set, search templates by
`InfraID ++ "-rhcos"` and remove every match in order, aborting on the
first failed removal. -/
def removeTemplate (eng : Engine) (md : ClusterMetadata) : StepResult :=
  if md.Ovirt.RemoveTemplate then
    let term := md.InfraID ++ "-rhcos"
    match eng.searchTemplates term with
    | .error _ =>
      ⟨[Op.searchTemplates term], [],
       some (.other ("could not find a template with name " ++ md.InfraID))⟩
    | .ok none => ⟨[Op.searchTemplates term], [], none⟩
    | .ok (some tmpls) =>
      let r := removeTemplateLoop eng tmpls
      ⟨Op.searchTemplates term :: r.1, r.2.1, r.2.2⟩
  else ⟨[], [], none⟩

/-- The loop of `removeAffinityGroups` (destroyer.go:158-166): remove
every listed group whose name starts with `InfraID ++ "-"`; failures are
only logged, never propagated. -/
def removeAffinityGroupsLoop (eng : Engine) (infraID : String) :
    List AffinityGroup → List Op × List LogEntry
  | [] => ([], [])
  | ag :: rest =>
    let r := removeAffinityGroupsLoop eng infraID rest
    if (infraID ++ "-").isPrefixOf ag.name then
      match eng.removeAffinityGroup ag.id with
      | .ok _ =>
        (Op.removeAffinityGroupOp ag.id :: r.1,
         LogEntry.mk .info ("Removing AffinityGroup " ++ ag.name) :: r.2)
      | .error _ =>
        (Op.removeAffinityGroupOp ag.id :: r.1,
         LogEntry.mk .info ("Removing AffinityGroup " ++ ag.name) ::
           LogEntry.mk .error "failed to remove AffinityGroup" :: r.2)
    else r

/-- `ClusterUninstaller.removeAffinityGroups` (destroyer.go:151-168):
list the affinity groups of the parent cluster; on list failure return
the error; otherwise remove each matching group, logging failures. -/
def removeAffinityGroups (eng : Engine) (md : ClusterMetadata) : StepResult :=
  match eng.listAffinityGroups md.Ovirt.ClusterID with
  | .error e => ⟨[Op.listAffinityGroups md.Ovirt.ClusterID], [], some e⟩
  | .ok ags =>
    let r := removeAffinityGroupsLoop eng md.InfraID ags
    ⟨Op.listAffinityGroups md.Ovirt.ClusterID :: r.1, r.2, none⟩

/-- Overall result of `ClusterUninstaller.Run`: trace, logs, and the Go
return pair `(*types.ClusterQuota, error)` with `none` for nil. -/
structure RunResult where
  ops : List Op
  logs : List LogEntry
  quota : Option Unit
  err : Option String
deriving DecidableEq, Repr

/-- The `for _, tag := range tags` loop of `Run` (destroyer.go:36-43):
for each tag scope run `removeVMs` then `removeTag`, logging (and
discarding) the error of each. -/
def runTagScopes (con : Engine) : List String → List Op × List LogEntry
  | [] => ([], [])
  | tag :: rest =>
    let r1 := removeVMs con tag
    let l1 :=
      match r1.ret with
      | some _ => r1.logs ++ [LogEntry.mk .error "failed to remove VMs"]
      | none => r1.logs
    let r2 := removeTag con tag
    let l2 :=
      match r2.ret with
      | some _ => r2.logs ++ [LogEntry.mk .error "failed to remove tag"]
      | none => r2.logs
    let r := runTagScopes con rest
    (r1.ops ++ r2.ops ++ r.1, l1 ++ l2 ++ r.2)

/-- `ClusterUninstaller.Run` (destroyer.go:24-52): establish the
connection (failure is the only non-nil error return); then for the
general tag and the bootstrap tag run `removeVMs` and `removeTag`; then
`removeTemplate`; then `removeAffinityGroups`; each step error is only
logged; finally return `(nil, nil)`. -/
def Run (conn : Except String Engine) (md : ClusterMetadata) : RunResult :=
  match conn with
  | .error e =>
    ⟨[], [], none, some ("failed to initialize connection to ovirt-engine " ++ e)⟩
  | .ok con =>
    let tagVMs := md.InfraID
    let tagVMbootstrap := md.InfraID ++ "-bootstrap"
    let scopes := runTagScopes con [tagVMs, tagVMbootstrap]
    let rt := removeTemplate con md
    let lt :=
      match rt.ret with
      | some _ => rt.logs ++ [LogEntry.mk .error "Failed to remove template"]
      | none => rt.logs
    let ra := removeAffinityGroups con md
    let la :=
      match ra.ret with
      | some _ => ra.logs ++ [LogEntry.mk .error "Failed to removing Affinity Groups"]
      | none => ra.logs
    ⟨scopes.1 ++ rt.ops ++ ra.ops, scopes.2 ++ lt ++ la, none, none⟩

end Ovirt

namespace Alicloud

/-- Error from the Alibaba Cloud SDK, as classified by the sgw service
wrappers (`IsExpectedErrors` checks the code constructors directly). -/
inductive AErr where
  | storageBundleNotExist
  | gatewayNotExist
  | throttling
  | other (msg : String)
deriving DecidableEq, Repr

/-- The parts of the `map[string]interface` response that the sgw
wrappers inspect: the printed `Success` field and an opaque payload.
`jsonpath.Get "$"` on a map is the identity and cannot fail, so it is
not modelled as fallible. -/
structure Resp where
  successStr : String
  payload : String
deriving DecidableEq, Repr

/-- Error after wrapping by the provider helpers: `WrapError`,
the `NotFoundMsg` wrapping of an expected not-found code,
`DefaultErrorMsg` wrapping, and the `Success == "false"` rejection. -/
inductive WrappedErr where
  | wrapped (e : AErr)
  | notFound (resource id : String)
  | defaultWrap (e : AErr) (id action : String)
  | successFalse (action : String)
deriving DecidableEq, Repr

/-- Responses of the external connection: client construction, the
response to the k-th `DoRequest` attempt, and the `NeedRetry`
classification of errors. -/
structure SgwEnv where
  newClient : Except AErr Unit
  doRequest : Nat → Except AErr Resp
  needRetry : AErr → Bool

/-- Outcome of the retry loop around `DoRequest`. -/
inductive ROutcome where
  | ok (r : Resp)
  | nonRetryable (e : AErr)
  | deadlineExceeded (e : AErr)
deriving DecidableEq, Repr

/-- Result of the retry loop: outcome, the waits performed between
attempts (seconds), and the number of attempts made. -/
structure RetryResult where
  outcome : ROutcome
  waits : List Nat
  attempts : Nat
deriving DecidableEq, Repr

/-- Modelled from the spec: the bodies of `resource.Retry`
(hashicorp terraform-plugin-sdk) and `incrementalWait` (alicloud
provider helpers) are not part of src/; only their call sites are.
Per the spec, the wrapper retries only errors classified retryable,
returns non-retryable errors immediately, waits between attempts a
linearly increasing time starting from the initial wait (`first`) and
growing by a fixed increment (`inc`), and bounds the total retrying
duration by the deadline.  `fuel` makes the model structurally
terminating; the instance below supplies more fuel than the deadline
admits retries. -/
def retryGo (deadline first inc : Nat) (needRetry : AErr → Bool)
    (respond : Nat → Except AErr Resp) : Nat → Nat → Nat → RetryResult
  | 0, k, _ => ⟨.deadlineExceeded (.other "model fuel exhausted"), [], k⟩
  | fuel + 1, k, elapsed =>
    match respond k with
    | .ok r => ⟨.ok r, [], k + 1⟩
    | .error e =>
      if needRetry e then
        let w := first + k * inc
        if elapsed + w ≤ deadline then
          let rest := retryGo deadline first inc needRetry respond fuel (k + 1) (elapsed + w)
          ⟨rest.outcome, w :: rest.waits, rest.attempts⟩
        else ⟨.deadlineExceeded e, [], k + 1⟩
      else ⟨.nonRetryable e, [], k + 1⟩

/-- The retry loop as instantiated by the gateway describe wrappers
(service_alicloud_sgw.go:60-71 and 102-113): deadline 5 minutes
(300 s), `incrementalWait(3*time.Second, 3*time.Second)`. -/
def gatewayRetry (env : SgwEnv) : RetryResult :=
  retryGo 300 3 3 env.needRetry env.doRequest 301 0 0

/-- `SgwService.DescribeCloudStorageGatewayStorageBundle`
(service_alicloud_sgw.go:17-46): one `DoRequest`; a
`StorageBundleNotExist` error code is rewrapped as a distinguished
NotFound outcome; any other error gets the default wrapping; a
successful response is returned as the object. -/
def DescribeCloudStorageGatewayStorageBundle (env : SgwEnv) (id : String) :
    Except WrappedErr Resp :=
  match env.newClient with
  | .error e => .error (.wrapped e)
  | .ok _ =>
    match env.doRequest 0 with
    | .error e =>
      if e = AErr.storageBundleNotExist then
        .error (.notFound "CloudStorageGatewayStorageBundle" id)
      else
        .error (.defaultWrap e id "DescribeStorageBundle")
    | .ok resp => .ok resp

/-- `SgwService.DescribeCloudStorageGatewayGateway`
(service_alicloud_sgw.go:48-88): retry loop around `DoRequest`; after
the loop a `GatewayNotExist` error becomes a NotFound outcome, other
errors get the default wrapping; a response whose printed `Success`
field is "false" is rejected; otherwise the response is the object. -/
def DescribeCloudStorageGatewayGateway (env : SgwEnv) (id : String) :
    Except WrappedErr Resp :=
  match env.newClient with
  | .error e => .error (.wrapped e)
  | .ok _ =>
    let r := gatewayRetry env
    match r.outcome with
    | .ok resp =>
      if resp.successStr = "false" then .error (.successFalse "DescribeGateway")
      else .ok resp
    | .nonRetryable e =>
      if e = AErr.gatewayNotExist then .error (.notFound "CloudStorageGateway:Gateway" id)
      else .error (.defaultWrap e id "DescribeGateway")
    | .deadlineExceeded e =>
      if e = AErr.gatewayNotExist then .error (.notFound "CloudStorageGateway:Gateway" id)
      else .error (.defaultWrap e id "DescribeGateway")

/-- `SgwService.DescribeGateway` (service_alicloud_sgw.go:90-130): the
same action, request, retry loop and error handling as
`DescribeCloudStorageGatewayGateway`, line for line. -/
def DescribeGateway (env : SgwEnv) (id : String) : Except WrappedErr Resp :=
  match env.newClient with
  | .error e => .error (.wrapped e)
  | .ok _ =>
    let r := gatewayRetry env
    match r.outcome with
    | .ok resp =>
      if resp.successStr = "false" then .error (.successFalse "DescribeGateway")
      else .ok resp
    | .nonRetryable e =>
      if e = AErr.gatewayNotExist then .error (.notFound "CloudStorageGateway:Gateway" id)
      else .error (.defaultWrap e id "DescribeGateway")
    | .deadlineExceeded e =>
      if e = AErr.gatewayNotExist then .error (.notFound "CloudStorageGateway:Gateway" id)
      else .error (.defaultWrap e id "DescribeGateway")

end Alicloud

namespace AlibabaCloud

/-- An Alibaba Cloud API client (metadata.go); opaque apart from the
region it was constructed for. -/
structure Client where
  region : String
deriving DecidableEq, Repr

/-- `Metadata` (metadata.go:6-9): the cached client and the region. -/
structure Metadata where
  client : Option Client
  Region : String
deriving DecidableEq, Repr

/-- `NewMetadata` (metadata.go:12-14). -/
def NewMetadata (region : String) : Metadata :=
  { client := none, Region := region }

/-- `Metadata.Client` (metadata.go:17-26): if no client is cached,
construct one from the region (`NewClient` is the explicit `newClient`
argument); a construction failure is returned and nothing is stored;
otherwise the (new or cached) client is returned together with the
updated receiver state. -/
def Metadata.Client (newClient : String → Except String Client) (m : Metadata) :
    Except String Client × Metadata :=
  match m.client with
  | some c => (.ok c, m)
  | none =>
    match newClient m.Region with
    | .error e => (.error e, m)
    | .ok c => (.ok c, { m with client := some c })

end AlibabaCloud

namespace Ovirt

/-- `true` iff the call succeeded: the predicate under which the
template-removal loop keeps going. -/
def exceptOk {α β : Type} : Except α β → Bool
  | .ok _ => true
  | .error _ => false

/-- The error of a failed call, `none` on success. -/
def errOf {α β : Type} : Except α β → Option α
  | .ok _ => none
  | .error e => some e

/-- Whether the removal call for a template succeeds: the predicate
under which the template-removal loop keeps going. -/
def tmplOk (eng : Engine) (t : Template) : Bool :=
  exceptOk (eng.removeTemplate t.id)

/-- A benign engine: every call succeeds, every listing is empty. -/
def engOk : Engine where
  searchVMs := fun _ => .ok []
  stopVM := fun _ => .ok ()
  waitForDown := fun _ => .ok ()
  removeVM := fun _ => .ok ()
  listTags := .ok []
  removeTag := fun _ => .ok ()
  searchTemplates := fun _ => .ok none
  removeTemplate := fun _ => .ok ()
  listAffinityGroups := fun _ => .ok []
  removeAffinityGroup := fun _ => .ok ()

/-- Engine with two VMs where the first VM fails to stop and to reach
the powered-off state and the second fails to be removed. -/
def engTwoVMs : Engine :=
  { engOk with
    searchVMs := fun _ => .ok [⟨"v1", "m1"⟩, ⟨"v2", "m2"⟩]
    stopVM := fun i => if i = "v1" then .error (.other "stop failed") else .ok ()
    waitForDown := fun i => if i = "v1" then .error (.other "wait timed out") else .ok ()
    removeVM := fun i => if i = "v2" then .error (.other "remove failed") else .ok () }

/-- Engine whose VM removal always answers not-found. -/
def engNotFound : Engine :=
  { engOk with removeVM := fun _ => .error .notFound }

/-- A concrete VM handle. -/
def vmA : Vm := ⟨"v1", "vm-a"⟩

/-- Engine whose template search finds two templates and whose removal
of the first template fails. -/
def engTwoTemplates : Engine :=
  { engOk with
    searchTemplates := fun _ => .ok (some [⟨"t1", "abc-rhcos"⟩, ⟨"t2", "abc-rhcos2"⟩])
    removeTemplate := fun i => if i = "t1" then .error (.other "template locked") else .ok () }

/-- Cluster metadata with the template-removal flag set. -/
def mdFlagOn : ClusterMetadata := ⟨"abc", ⟨true, "cid"⟩⟩

/-- Cluster metadata with the template-removal flag unset. -/
def mdFlagOff : ClusterMetadata := ⟨"abc", ⟨false, "cid"⟩⟩

end Ovirt

namespace Alicloud

/-- Environment whose first request answers the storage-bundle
not-found code. -/
def envBundleNotFound : SgwEnv where
  newClient := .ok ()
  doRequest := fun _ => .error .storageBundleNotExist
  needRetry := fun _ => false

/-- Environment whose first request fails with an error classified as
non-retryable. -/
def envNonRetryable : SgwEnv where
  newClient := .ok ()
  doRequest := fun _ => .error (.other "auth denied")
  needRetry := fun _ => false

/-- Environment answering two retryable throttling errors and then a
successful response. -/
def envTwoThrottles : SgwEnv where
  newClient := .ok ()
  doRequest := fun k => if k < 2 then .error .throttling else .ok ⟨"true", "payload"⟩
  needRetry := fun e => e = .throttling

end Alicloud

namespace AlibabaCloud

/-- A client constructor that always succeeds. -/
def clientOkCtor : String → Except String Client := fun r => .ok ⟨r⟩

/-- A client constructor that always fails. -/
def clientBadCtor : String → Except String Client := fun _ => .error "boom"

end AlibabaCloud

/-- The operations attempted by one per-VM unit do not depend on any
call outcome: stop, wait for powered-off, remove, in that order. -/
theorem vmUnit_ops (eng : Ovirt.Engine) (vm : Ovirt.Vm) :
    (Ovirt.vmUnit eng vm).1
      = [Ovirt.Op.stop vm.id, Ovirt.Op.waitDown vm.id, Ovirt.Op.remove vm.id] := by
  unfold Ovirt.vmUnit Ovirt.removeVM Ovirt.stopVM
  cases eng.removeVM vm.id <;> rfl

/-- Claim C1: `ClusterUninstaller.Run` never aborts early on a step
failure: for every engine (hence every outcome of the individual
steps), the operations attempted are exactly those of `removeVMs` then
`removeTag` for the general tag, then the same for the bootstrap tag,
then `removeTemplate`, then `removeAffinityGroups`, in that order; and
`removeTag` always begins with the tag listing call, so tag removal is
attempted whatever `removeVMs` returned. -/
theorem C1_run_never_aborts (eng : Ovirt.Engine) (md : Ovirt.ClusterMetadata) :
    (Ovirt.Run (.ok eng) md).ops
        = (Ovirt.removeVMs eng md.InfraID).ops
            ++ (Ovirt.removeTag eng md.InfraID).ops
            ++ (Ovirt.removeVMs eng (md.InfraID ++ "-bootstrap")).ops
            ++ (Ovirt.removeTag eng (md.InfraID ++ "-bootstrap")).ops
            ++ (Ovirt.removeTemplate eng md).ops
            ++ (Ovirt.removeAffinityGroups eng md).ops
      ∧ ∀ tag : String, (Ovirt.removeTag eng tag).ops.head? = some Ovirt.Op.listTags := by
  constructor
  · simp [Ovirt.Run, Ovirt.runTagScopes, List.append_assoc]
  · intro tag
    unfold Ovirt.removeTag
    cases eng.listTags <;> rfl

/-- Claim C2: for every VM list returned by the tag search, `removeVMs`
attempts stop, wait and remove for each of the N VMs and returns nil;
the remove call of a VM is attempted whatever its stop and wait calls
returned, and the unit trace of each VM is a function of that VM alone,
so a sibling failure cannot suppress it. -/
theorem C2_removeVMs_all_units (eng : Ovirt.Engine) (tag : String) (vms : List Ovirt.Vm)
    (h : eng.searchVMs tag = .ok vms) :
    (Ovirt.removeVMs eng tag).ops
        = Ovirt.Op.searchVMs tag ::
            vms.flatMap (fun vm =>
              [Ovirt.Op.stop vm.id, Ovirt.Op.waitDown vm.id, Ovirt.Op.remove vm.id])
      ∧ (Ovirt.removeVMs eng tag).ret = none
      ∧ ∀ vm ∈ vms, Ovirt.Op.remove vm.id ∈ (Ovirt.removeVMs eng tag).ops := by
  have hops : (Ovirt.removeVMs eng tag).ops
      = Ovirt.Op.searchVMs tag ::
          vms.flatMap (fun vm =>
            [Ovirt.Op.stop vm.id, Ovirt.Op.waitDown vm.id, Ovirt.Op.remove vm.id]) := by
    simp [Ovirt.removeVMs, h, vmUnit_ops]
  refine ⟨hops, by simp [Ovirt.removeVMs, h], ?_⟩
  intro vm hvm
  rw [hops]
  exact List.mem_cons_of_mem _ (List.mem_flatMap.mpr ⟨vm, hvm, by simp⟩)

/-- Witness for C2 at a concrete engine with two VMs, one failing to
stop and wait, the other failing to be removed. -/
theorem C2_witness :
    (Ovirt.removeVMs Ovirt.engTwoVMs "abc").ops
        = [Ovirt.Op.searchVMs "abc",
           Ovirt.Op.stop "v1", Ovirt.Op.waitDown "v1", Ovirt.Op.remove "v1",
           Ovirt.Op.stop "v2", Ovirt.Op.waitDown "v2", Ovirt.Op.remove "v2"]
      ∧ (Ovirt.removeVMs Ovirt.engTwoVMs "abc").ret = none := by
  have h := C2_removeVMs_all_units Ovirt.engTwoVMs "abc" [⟨"v1", "m1"⟩, ⟨"v2", "m2"⟩] rfl
  exact ⟨by rw [h.1]; rfl, h.2.1⟩

/-- Claim C3: `Run` returns a non-nil error exactly when establishing
the connection fails; once a connection is available the error return
is nil whatever the engine answers, and the quota return is always
nil. -/
theorem C3_run_error_iff_connection (md : Ovirt.ClusterMetadata) :
    (∀ eng : Ovirt.Engine, (Ovirt.Run (.ok eng) md).err = none)
      ∧ (∀ e : String, (Ovirt.Run (.error e) md).err
            = some ("failed to initialize connection to ovirt-engine " ++ e))
      ∧ ∀ conn : Except String Ovirt.Engine, (Ovirt.Run conn md).quota = none := by
  refine ⟨fun eng => rfl, fun e => rfl, fun conn => ?_⟩
  cases conn <;> rfl

/-- Claim C8: when the VM search succeeds with an empty set,
`removeVMs` issues no stop or remove call and returns nil. -/
theorem C8_removeVMs_empty_noop (eng : Ovirt.Engine) (tag : String)
    (h : eng.searchVMs tag = .ok []) :
    (Ovirt.removeVMs eng tag).ops = [Ovirt.Op.searchVMs tag]
      ∧ (Ovirt.removeVMs eng tag).ret = none := by
  simp [Ovirt.removeVMs, h]

/-- Witness for C8 at an engine whose search finds nothing. -/
theorem C8_witness :
    (Ovirt.removeVMs Ovirt.engOk "abc").ops = [Ovirt.Op.searchVMs "abc"]
      ∧ (Ovirt.removeVMs Ovirt.engOk "abc").ret = none :=
  C8_removeVMs_empty_noop Ovirt.engOk "abc" rfl

/-- Claim C4, counterexample: `removeVM` does not treat a not-found
response as equivalent to successful removal — at this concrete input
the not-found answer is reported through the error-level failure log
line, and the success log line is not emitted. -/
theorem C4_counterexample :
    (Ovirt.removeVM Ovirt.engNotFound Ovirt.vmA).2
        = [⟨Ovirt.LogLevel.error, "Failed to remove VM vm-a"⟩]
      ∧ (⟨Ovirt.LogLevel.info, "Removing VM vm-a"⟩ : Ovirt.LogEntry)
          ∉ (Ovirt.removeVM Ovirt.engNotFound Ovirt.vmA).2 := by
  decide

/-- Claim C4 as amended: in the describe wrapper
`DescribeCloudStorageGatewayStorageBundle` a not-found response is
translated into the distinguished NotFound outcome rather than an
ordinary error; `removeVM`, however, has no special not-found handling:
every removal error, not-found included, is logged as a failure (though
never propagated). -/
theorem C4_amended (env : Alicloud.SgwEnv) (id : String)
    (eng : Ovirt.Engine) (vm : Ovirt.Vm) (e : Ovirt.OErr) :
    (env.newClient = .ok () →
      env.doRequest 0 = .error .storageBundleNotExist →
        Alicloud.DescribeCloudStorageGatewayStorageBundle env id
          = .error (.notFound "CloudStorageGatewayStorageBundle" id))
    ∧ (eng.removeVM vm.id = .error e →
        (Ovirt.removeVM eng vm).2
          = [⟨Ovirt.LogLevel.error, "Failed to remove VM " ++ vm.name⟩]) := by
  constructor
  · intro hc hr
    simp [Alicloud.DescribeCloudStorageGatewayStorageBundle, hc, hr]
  · intro hr
    simp [Ovirt.removeVM, hr]

/-- Witness for C4 as amended, at an environment answering the bundle
not-found code and an engine answering not-found to the VM removal. -/
theorem C4_witness :
    Alicloud.DescribeCloudStorageGatewayStorageBundle Alicloud.envBundleNotFound "sb-1"
        = .error (.notFound "CloudStorageGatewayStorageBundle" "sb-1")
      ∧ (Ovirt.removeVM Ovirt.engNotFound Ovirt.vmA).2
          = [⟨Ovirt.LogLevel.error, "Failed to remove VM vm-a"⟩] := by
  have h := C4_amended Alicloud.envBundleNotFound "sb-1"
    Ovirt.engNotFound Ovirt.vmA Ovirt.OErr.notFound
  exact ⟨h.1 rfl rfl, h.2 rfl⟩

/-- The template-removal loop removes templates in order up to and
including the first failed removal, skipping everything after it, and
returns the error of that first failure (nil when none fails). -/
theorem removeTemplateLoop_spec (eng : Ovirt.Engine) (tmpls : List Ovirt.Template) :
    (Ovirt.removeTemplateLoop eng tmpls).1
        = ((tmpls.takeWhile (Ovirt.tmplOk eng)
            ++ (tmpls.dropWhile (Ovirt.tmplOk eng)).take 1).map
              (fun t => Ovirt.Op.removeTemplateOp t.id))
      ∧ (Ovirt.removeTemplateLoop eng tmpls).2.2
        = ((tmpls.dropWhile (Ovirt.tmplOk eng)).head?).bind
            (fun t => Ovirt.errOf (eng.removeTemplate t.id)) := by
  induction tmpls with
  | nil => exact ⟨rfl, rfl⟩
  | cons t ts ih =>
    cases hc : eng.removeTemplate t.id with
    | error e =>
      have hp : Ovirt.tmplOk eng t = false := by
        unfold Ovirt.tmplOk
        rw [hc]
        rfl
      have he : Ovirt.errOf (eng.removeTemplate t.id) = some e := by
        rw [hc]
        rfl
      simp [Ovirt.removeTemplateLoop, hc, List.takeWhile_cons, List.dropWhile_cons, hp, he,
        Ovirt.errOf]
    | ok u =>
      have hp : Ovirt.tmplOk eng t = true := by
        unfold Ovirt.tmplOk
        rw [hc]
        rfl
      simp only [Ovirt.removeTemplateLoop, hc, List.takeWhile_cons, List.dropWhile_cons, hp,
        if_true, List.map_cons, List.cons_append]
      exact ⟨by rw [ih.1], by rw [ih.2]⟩

/-- Claim C5, counterexample: with the flag set and a successful search
returning two templates, a failed removal of the first template
suppresses the removal attempt of the second and makes `removeTemplate`
return an error — the matches are not removed independently of each
other. -/
theorem C5_counterexample :
    Ovirt.Op.removeTemplateOp "t2"
        ∉ (Ovirt.removeTemplate Ovirt.engTwoTemplates Ovirt.mdFlagOn).ops
      ∧ (Ovirt.removeTemplate Ovirt.engTwoTemplates Ovirt.mdFlagOn).ret
          = some (.other "template locked") := by
  decide

/-- Claim C5 as amended: template removal runs only when the
`RemoveTemplate` flag is set (unset: no API call, nil return); when the
flag is set and the search succeeds, templates are removed in list
order only up to and including the first failed removal — later matches
are not attempted — and the error of that first failure is returned
(nil when every removal succeeds). -/
theorem C5_amended (eng : Ovirt.Engine) (md : Ovirt.ClusterMetadata)
    (tmpls : List Ovirt.Template) :
    (md.Ovirt.RemoveTemplate = false → Ovirt.removeTemplate eng md = ⟨[], [], none⟩)
    ∧ (md.Ovirt.RemoveTemplate = true →
        eng.searchTemplates (md.InfraID ++ "-rhcos") = .ok (some tmpls) →
          (Ovirt.removeTemplate eng md).ops
              = Ovirt.Op.searchTemplates (md.InfraID ++ "-rhcos") ::
                  ((tmpls.takeWhile (Ovirt.tmplOk eng)
                    ++ (tmpls.dropWhile (Ovirt.tmplOk eng)).take 1).map
                    (fun t => Ovirt.Op.removeTemplateOp t.id))
            ∧ (Ovirt.removeTemplate eng md).ret
              = ((tmpls.dropWhile (Ovirt.tmplOk eng)).head?).bind
                  (fun t => Ovirt.errOf (eng.removeTemplate t.id))) := by
  constructor
  · intro hf
    simp [Ovirt.removeTemplate, hf]
  · intro hf hs
    have h := removeTemplateLoop_spec eng tmpls
    constructor
    · simp only [Ovirt.removeTemplate, hf, if_true, hs]
      rw [← h.1]
    · simp only [Ovirt.removeTemplate, hf, if_true, hs]
      rw [← h.2]

/-- Witness for C5 as amended: flag off at one metadata, flag on with a
two-template search at another, where the first removal fails. -/
theorem C5_witness :
    Ovirt.removeTemplate Ovirt.engTwoTemplates Ovirt.mdFlagOff = ⟨[], [], none⟩
      ∧ (Ovirt.removeTemplate Ovirt.engTwoTemplates Ovirt.mdFlagOn).ops
          = [Ovirt.Op.searchTemplates "abc-rhcos", Ovirt.Op.removeTemplateOp "t1"]
      ∧ (Ovirt.removeTemplate Ovirt.engTwoTemplates Ovirt.mdFlagOn).ret
          = some (.other "template locked") := by
  have h1 := (C5_amended Ovirt.engTwoTemplates Ovirt.mdFlagOff []).1 rfl
  have h2 := (C5_amended Ovirt.engTwoTemplates Ovirt.mdFlagOn
    [⟨"t1", "abc-rhcos"⟩, ⟨"t2", "abc-rhcos2"⟩]).2 rfl rfl
  exact ⟨h1, by rw [h2.1]; decide, by rw [h2.2]; decide⟩

/-- One step of the retry loop: a first-attempt error classified
non-retryable is returned at once, with no wait and no further
attempt. -/
theorem retryGo_nonretryable (d f i : Nat) (nr : Alicloud.AErr → Bool)
    (resp : Nat → Except Alicloud.AErr Alicloud.Resp) (fuel k elapsed : Nat)
    (e : Alicloud.AErr) (h1 : resp k = .error e) (h2 : nr e = false) :
    Alicloud.retryGo d f i nr resp (fuel + 1) k elapsed = ⟨.nonRetryable e, [], k + 1⟩ := by
  simp [Alicloud.retryGo, h1, h2]

/-- Claim C6: in the retry loop used by the gateway describe wrappers,
a first attempt failing with an error classified non-retryable ends the
loop immediately: that error is the outcome, no backoff wait is
performed, and no further attempt is made. -/
theorem C6_nonretryable_immediate (env : Alicloud.SgwEnv) (e : Alicloud.AErr)
    (h1 : env.doRequest 0 = .error e) (h2 : env.needRetry e = false) :
    Alicloud.gatewayRetry env = ⟨.nonRetryable e, [], 1⟩ :=
  retryGo_nonretryable 300 3 3 env.needRetry env.doRequest 300 0 0 e h1 h2

/-- Witness for C6 at an environment whose first request fails with a
non-retryable error. -/
theorem C6_witness :
    Alicloud.gatewayRetry Alicloud.envNonRetryable
      = ⟨.nonRetryable (.other "auth denied"), [], 1⟩ :=
  C6_nonretryable_immediate Alicloud.envNonRetryable (.other "auth denied") rfl rfl

/-- The waits performed by the retry loop started at retry index `k`
follow the arithmetic progression `first + (k + j) * inc`. -/
theorem retryGo_waits_arith (d f i : Nat) (nr : Alicloud.AErr → Bool)
    (resp : Nat → Except Alicloud.AErr Alicloud.Resp) :
    ∀ fuel k elapsed,
      (Alicloud.retryGo d f i nr resp fuel k elapsed).waits
        = (List.range (Alicloud.retryGo d f i nr resp fuel k elapsed).waits.length).map
            (fun j => f + (k + j) * i) := by
  intro fuel
  induction fuel with
  | zero => intro k elapsed; rfl
  | succ fuel ih =>
    intro k elapsed
    show (Alicloud.retryGo d f i nr resp (fuel + 1) k elapsed).waits = _
    rw [Alicloud.retryGo]
    cases hr : resp k with
    | ok r => rfl
    | error e =>
      by_cases hn : nr e
      · simp only [hn, if_true]
        by_cases hd : elapsed + (f + k * i) ≤ d
        · simp only [hd, if_true]
          have hrec := ih (k + 1) (elapsed + (f + k * i))
          show (f + k * i)
                :: (Alicloud.retryGo d f i nr resp fuel (k + 1) (elapsed + (f + k * i))).waits
              = (List.range ((f + k * i)
                  :: (Alicloud.retryGo d f i nr resp fuel (k + 1)
                        (elapsed + (f + k * i))).waits).length).map (fun j => f + (k + j) * i)
          rw [List.length_cons]
          conv_lhs => rw [hrec]
          rw [List.range_succ_eq_map, List.map_cons, List.map_map]
          congr 1
          refine List.map_congr_left ?_
          intro j _
          show f + (k + 1 + j) * i = f + (k + (j + 1)) * i
          have harj : k + 1 + j = k + (j + 1) := by omega
          rw [harj]
        · simp [hd]
      · simp [hn]

/-- The total of the waits performed by the retry loop never exceeds
the deadline (relative to the time already elapsed at entry). -/
theorem retryGo_waits_sum (d f i : Nat) (nr : Alicloud.AErr → Bool)
    (resp : Nat → Except Alicloud.AErr Alicloud.Resp) :
    ∀ fuel k elapsed,
      (Alicloud.retryGo d f i nr resp fuel k elapsed).waits.sum = 0
        ∨ elapsed + (Alicloud.retryGo d f i nr resp fuel k elapsed).waits.sum ≤ d := by
  intro fuel
  induction fuel with
  | zero => intro k elapsed; exact Or.inl rfl
  | succ fuel ih =>
    intro k elapsed
    rw [Alicloud.retryGo]
    cases hr : resp k with
    | ok r => exact Or.inl rfl
    | error e =>
      by_cases hn : nr e
      · simp only [hn, if_true]
        by_cases hd : elapsed + (f + k * i) ≤ d
        · simp only [hd, if_true]
          rcases ih (k + 1) (elapsed + (f + k * i)) with h0 | hle
          · right
            simp only [List.sum_cons, h0]
            omega
          · right
            simp only [List.sum_cons]
            omega
        · simp [hd]
      · simp [hn]

/-- Claim C7: within one wrapped gateway call, the sequence of waits is
the arithmetic progression starting at the configured initial wait
(3 s) and increasing by the fixed increment (3 s) each retry, hence
non-decreasing, and the total time spent waiting between retries is
bounded by the 5-minute (300 s) ceiling. -/
theorem C7_linear_backoff_bounded (env : Alicloud.SgwEnv) :
    (Alicloud.gatewayRetry env).waits
        = (List.range (Alicloud.gatewayRetry env).waits.length).map (fun j => 3 + j * 3)
      ∧ List.Chain' (fun a b => a ≤ b) (Alicloud.gatewayRetry env).waits
      ∧ (Alicloud.gatewayRetry env).waits.sum ≤ 300 := by
  have harith := retryGo_waits_arith 300 3 3 env.needRetry env.doRequest 301 0 0
  have hsum := retryGo_waits_sum 300 3 3 env.needRetry env.doRequest 301 0 0
  have h1 : (Alicloud.gatewayRetry env).waits
      = (List.range (Alicloud.gatewayRetry env).waits.length).map (fun j => 3 + j * 3) := by
    simpa [Alicloud.gatewayRetry] using harith
  refine ⟨h1, ?_, ?_⟩
  · rw [h1, List.chain'_iff_get]
    intro j hj
    simp only [List.get_eq_getElem, List.getElem_map, List.getElem_range]
    omega
  · rcases hsum with h0 | hle
    · show (Alicloud.gatewayRetry env).waits.sum ≤ 300
      rw [show (Alicloud.gatewayRetry env).waits.sum
            = (Alicloud.retryGo 300 3 3 env.needRetry env.doRequest 301 0 0).waits.sum from rfl,
          h0]
      omega
    · show (Alicloud.gatewayRetry env).waits.sum ≤ 300
      rw [show (Alicloud.gatewayRetry env).waits.sum
            = (Alicloud.retryGo 300 3 3 env.needRetry env.doRequest 301 0 0).waits.sum from rfl]
      omega

/-- Claim C9: `DescribeGateway` and `DescribeCloudStorageGatewayGateway`
are equivalent: for every environment (hence every sequence of
responses of the external connection) and every gateway id they return
the same object-or-error result. -/
theorem C9_describe_gateway_equiv (env : Alicloud.SgwEnv) (id : String) :
    Alicloud.DescribeGateway env id = Alicloud.DescribeCloudStorageGatewayGateway env id :=
  rfl

/-- Claim C10: `Metadata.Client` is memoizing and error-atomic: a
cached client is returned unchanged without consulting the constructor;
the first successful construction stores the client, after which any
constructor is ignored; a failed construction returns the error and
leaves the metadata (cached client included) unchanged; and no call
modifies the `Region` field. -/
theorem C10_metadata_client_memoizing
    (f g : String → Except String AlibabaCloud.Client) (m : AlibabaCloud.Metadata)
    (c : AlibabaCloud.Client) (e : String) :
    (m.client = some c → AlibabaCloud.Metadata.Client f m = (.ok c, m))
    ∧ (m.client = none → f m.Region = .ok c →
        AlibabaCloud.Metadata.Client f m = (.ok c, { m with client := some c })
          ∧ AlibabaCloud.Metadata.Client g { m with client := some c }
              = (.ok c, { m with client := some c }))
    ∧ (m.client = none → f m.Region = .error e →
        AlibabaCloud.Metadata.Client f m = (.error e, m))
    ∧ (AlibabaCloud.Metadata.Client f m).2.Region = m.Region := by
  refine ⟨?_, ?_, ?_, ?_⟩
  · intro h
    simp [AlibabaCloud.Metadata.Client, h]
  · intro h hf
    exact ⟨by simp [AlibabaCloud.Metadata.Client, h, hf],
           by simp [AlibabaCloud.Metadata.Client]⟩
  · intro h hf
    simp [AlibabaCloud.Metadata.Client, h, hf]
  · unfold AlibabaCloud.Metadata.Client
    cases m.client with
    | some c => rfl
    | none => cases f m.Region <;> rfl

/-- Witness for C10: a failing constructor leaves a fresh metadata
unchanged, a succeeding one stores the client, and a cached client is
returned as is. -/
theorem C10_witness :
    AlibabaCloud.Metadata.Client AlibabaCloud.clientBadCtor (AlibabaCloud.NewMetadata "cn")
        = (.error "boom", AlibabaCloud.NewMetadata "cn")
      ∧ AlibabaCloud.Metadata.Client AlibabaCloud.clientOkCtor (AlibabaCloud.NewMetadata "cn")
        = (.ok ⟨"cn"⟩, { client := some ⟨"cn"⟩, Region := "cn" })
      ∧ AlibabaCloud.Metadata.Client AlibabaCloud.clientBadCtor
          { client := some ⟨"x"⟩, Region := "cn" }
        = (.ok ⟨"x"⟩, { client := some ⟨"x"⟩, Region := "cn" }) := by
  refine ⟨?_, ?_, ?_⟩
  · exact (C10_metadata_client_memoizing AlibabaCloud.clientBadCtor AlibabaCloud.clientBadCtor
      (AlibabaCloud.NewMetadata "cn") ⟨"cn"⟩ "boom").2.2.1 rfl rfl
  · exact ((C10_metadata_client_memoizing AlibabaCloud.clientOkCtor AlibabaCloud.clientOkCtor
      (AlibabaCloud.NewMetadata "cn") ⟨"cn"⟩ "boom").2.1 rfl rfl).1
  · exact (C10_metadata_client_memoizing AlibabaCloud.clientBadCtor AlibabaCloud.clientBadCtor
      { client := some ⟨"x"⟩, Region := "cn" } ⟨"x"⟩ "boom").1 rfl
